import Mathlib

/-!
Shallow embedding of the sanctions screening / compliance checking engine of
the `legal-ai-agents` repository, together with theorems settling the frozen
claims about it.

The embedding covers:

* `agents/compliance_checker_agent.py`:
  the string similarity heuristic (`_calculate_similarity`), the watchlist
  matcher (`_match_against_sanctions_list`), the crypto denylist pass
  (`_check_crypto_specific_sanctions`), the per-category risk-level
  calculators, the sanctions screening action (`_sanctions_screening`), the
  full compliance check (`_full_compliance_check`), and the recommendation
  generator (`_generate_compliance_recommendations`).

* `tools/sanctions_data_manager.py`:
  the per-source replacement of stored entities (`_store_entities`) and the
  per-source counts of `get_statistics`.

Python floats are modelled by `ℚ` (all quantities involved are small exact
fractions `common / maxLen`), Python strings by `String`, Python lists by
`List`, and a Python `dict` value that may be absent (`d.get(k)` /
`d.get(k, {})`) by `Option`.  Timestamp fields (`screening_date`,
`check_date`, `last_updated`, ...) are omitted: they are wall-clock values
never consulted by any logic treated here.

A method that a Python object calls on itself but that is defined neither in
`ComplianceCheckerAgent` nor in its base class `BaseAgent` raises
`AttributeError` at the call site; such calls are modelled as
`Except.error` values carrying the Python error message.
-/

/-- Whether `a` occurs as a contiguous block at some position of `b`. -/
def infix_of (a : List Char) : List Char → Bool
  | [] => a.isEmpty
  | c :: rest => a.isPrefixOf (c :: rest) || infix_of a rest

/-- Python `a in b` on strings: `a` occurs as a contiguous substring of `b`
(`"" in b` is `True`). -/
def py_in (a b : String) : Bool :=
  infix_of a.toList b.toList

/-- Python `s.lower()` (ASCII-relevant case folding), written over the
character list so that it reduces in the kernel. -/
def py_lower (s : String) : String :=
  String.mk (s.data.map Char.toLower)

/-- Model of `_calculate_similarity` (compliance_checker_agent.py:642-651): returns
`0.0` when either string is empty; otherwise the number of characters of
`str1` that occur anywhere in `str2`, divided by the length of the longer
string. -/
def calculate_similarity (str1 str2 : String) : ℚ :=
  if str1.data.isEmpty || str2.data.isEmpty then 0
  else
    let common_chars := (str1.toList.filter (fun c => str2.toList.contains c)).length
    let max_len := max str1.toList.length str2.toList.length
    if max_len = 0 then 0 else (common_chars : ℚ) / (max_len : ℚ)

/-- One row of the sanctions data consumed by the matcher
(`_get_sanctions_data` returns `{'entities': [{'name': ..., 'type': ...,
'program': ...}, ...]}`).  The matcher reads only the `name` key of each
entity dict; the remaining keys — including an `aliases` key when a producer
supplies one — are carried along untouched inside the match `details`. -/
structure WatchEntity where
  name : String
  entity_type : String := ""
  program : String := ""
  aliases : List String := []
deriving Repr, DecidableEq

/-- The `details` dict attached to a `SanctionsMatch`: either the full
watchlist entity record (watchlist pass) or
`{'service': s, 'type': 'crypto_service'}` (crypto denylist pass). -/
inductive MatchDetails where
  | entity (e : WatchEntity)
  | crypto_service (service : String)
deriving Repr, DecidableEq

/-- The `SanctionsMatch` dataclass (compliance_checker_agent.py:23-31). -/
structure SanctionsMatch where
  entity_name : String
  match_type : String
  sanctions_list : String
  match_score : ℚ
  details : MatchDetails
  risk_level : String
deriving Repr, DecidableEq

/-- Model of `_match_against_sanctions_list` (compliance_checker_agent.py:606-640):
for each entity, an exact (case-insensitive) name equality yields an
`exact/1.0/HIGH` match; otherwise substring containment in either direction
with similarity above `0.8` yields a `fuzzy` match whose risk level is
`MEDIUM` above `0.9` and `LOW` otherwise.  Only the `name` key of each
entity is ever consulted. -/
def match_against_sanctions_list (target : String) (entities : List WatchEntity)
    (list_name : String) : List SanctionsMatch :=
  let target_lower := py_lower target
  entities.flatMap (fun entity =>
    let entity_name := py_lower entity.name
    if target_lower = entity_name then
      [{ entity_name := entity.name
         match_type := "exact"
         sanctions_list := list_name
         match_score := 1
         details := .entity entity
         risk_level := "HIGH" }]
    else if py_in target_lower entity_name || py_in entity_name target_lower then
      let similarity_score := calculate_similarity target_lower entity_name
      if similarity_score > 8/10 then
        [{ entity_name := entity.name
           match_type := "fuzzy"
           sanctions_list := list_name
           match_score := similarity_score
           details := .entity entity
           risk_level := if similarity_score > 9/10 then "MEDIUM" else "LOW" }]
      else []
    else [])

/-- The fixed crypto denylist of `_check_crypto_specific_sanctions`
(compliance_checker_agent.py:660-664). -/
def crypto_sanctions : List String :=
  ["tornado.cash", "blender.io", "mixer.money"]

/-- Model of `_check_crypto_specific_sanctions` (compliance_checker_agent.py:653-678):
every denylisted service occurring as a substring of the lower-cased target
yields an `exact/1.0/HIGH` match on list `OFAC_CRYPTO`. -/
def check_crypto_specific_sanctions (target : String) : List SanctionsMatch :=
  let target_lower := py_lower target
  crypto_sanctions.flatMap (fun sanctioned_service =>
    if py_in sanctioned_service target_lower then
      [{ entity_name := sanctioned_service
         match_type := "exact"
         sanctions_list := "OFAC_CRYPTO"
         match_score := 1
         details := .crypto_service sanctioned_service
         risk_level := "HIGH" }]
    else [])

/-- Model of `_calculate_sanctions_risk_level` (compliance_checker_agent.py:708-721):
`LOW` on no matches, `CRITICAL` if any match has risk `HIGH`, else `HIGH` if
any `MEDIUM`, else `MEDIUM`. -/
def calculate_sanctions_risk_level (ms : List SanctionsMatch) : String :=
  if ms.isEmpty then "LOW"
  else if ms.any (fun m => m.risk_level = "HIGH") then "CRITICAL"
  else if ms.any (fun m => m.risk_level = "MEDIUM") then "HIGH"
  else "MEDIUM"

/-- One configured sanctions source, as seen by the loop of
`_sanctions_screening` (compliance_checker_agent.py:278-290): a list name
together with the outcome of looking it up — either the entity rows
(`_get_sanctions_data` succeeded) or the message of the exception the lookup
raised. -/
def SourceOutcome := List (String × Except String (List WatchEntity))

/-- The `screening_results` dict assembled by `_sanctions_screening`
(compliance_checker_agent.py:269-300).  The per-source error entries
(`screening_results[f'<name>_error'] = str(e)`) are collected as
`source_errors`; the Python `matches` key is named `match_list` here
(`matches` is reserved in Lean); the wall-clock `screening_date` is
omitted. -/
structure ScreeningResults where
  target : String
  lists_checked : List String
  match_list : List SanctionsMatch
  risk_level : String
  source_errors : List (String × String)
  crypto_specific_matches : Bool
deriving Repr, DecidableEq

/-- The source loop of `_sanctions_screening`
(compliance_checker_agent.py:278-290): walk the configured sources in order;
a successful lookup appends the list name to `lists_checked` and the matches
of `_match_against_sanctions_list` to the running match list; a failed
lookup records a per-source error and continues with the remaining
sources. -/
def screen_sources (target : String) :
    List (String × Except String (List WatchEntity)) →
      List String × List SanctionsMatch × List (String × String)
  | [] => ([], [], [])
  | (list_name, .ok sanctions_data) :: rest =>
      let r := screen_sources target rest
      (list_name :: r.1,
       match_against_sanctions_list target sanctions_data list_name ++ r.2.1,
       r.2.2)
  | (list_name, .error e) :: rest =>
      let r := screen_sources target rest
      (r.1, r.2.1, (list_name, e) :: r.2.2)

/-- Model of `_sanctions_screening` up to line 300: the fully assembled
`screening_results` dict.  `risk_level` is computed (line 294) from the
watchlist matches alone, BEFORE the crypto denylist matches are appended to
`matches` (lines 297-300). -/
def build_screening_results (target : String) (sources : SourceOutcome) :
    ScreeningResults :=
  let r := screen_sources target sources
  let crypto_matches := check_crypto_specific_sanctions target
  { target := target
    lists_checked := r.1
    match_list := r.2.1 ++ crypto_matches
    risk_level := calculate_sanctions_risk_level r.2.1
    source_errors := r.2.2
    crypto_specific_matches := !crypto_matches.isEmpty }

/-- The helper `_format_sanctions_screening_results` is called at
compliance_checker_agent.py:302 but is defined nowhere in
`ComplianceCheckerAgent` nor in `BaseAgent`; in Python the call raises
`AttributeError`. -/
def format_sanctions_screening_results : ScreeningResults → Except String String :=
  fun _ => .error
    "ComplianceCheckerAgent object has no attribute _format_sanctions_screening_results"

/-- The dict returned by a category screener: `success`, the `content`
string, and the `data` key, which is absent (`none`) exactly on the
`except` branch (compliance_checker_agent.py:317-322). -/
structure ScreenerResult (α : Type) where
  success : Bool
  content : String
  data : Option α
deriving Repr, DecidableEq

/-- Model of `_sanctions_screening` (compliance_checker_agent.py:256-322): assemble
`screening_results`, then call the (undefined) results formatter; the
`AttributeError` it raises lands in the `except` branch, which returns
`success=False` with an error `content` and no `data` key.  The
`parameters` argument of the Python method is never read and is omitted. -/
def sanctions_screening (target : String) (sources : SourceOutcome) :
    ScreenerResult ScreeningResults :=
  let screening_results := build_screening_results target sources
  match format_sanctions_screening_results screening_results with
  | .ok formatted_results =>
      { success := true, content := formatted_results, data := some screening_results }
  | .error e =>
      { success := false, content := "Error in sanctions screening: " ++ e, data := none }

/-- The `EnforcementAction` dataclass (compliance_checker_agent.py:33-41). -/
structure EnforcementAction where
  agency : String
  action_type : String
  date : String
  description : String
  url : String
  severity : String
deriving Repr, DecidableEq

/-- The configured enforcement agencies, `self.enforcement_sources`
(compliance_checker_agent.py:80-86), in insertion order. -/
def enforcement_sources : List (String × String) :=
  [("SEC", "https://www.sec.gov/litigation/litreleases"),
   ("CFTC", "https://www.cftc.gov/LawRegulation/Enforcement"),
   ("DOJ", "https://www.justice.gov/criminal-fraud"),
   ("FINRA", "https://www.finra.org/rules-guidance/oversight-enforcement"),
   ("FINCEN", "https://www.fincen.gov/news/enforcement-actions")]

/-- Model of `_search_enforcement_actions` (compliance_checker_agent.py:680-696): the
mock search emits one MEDIUM-severity `Investigation` when the lower-cased
target contains `defi` or `crypto`, otherwise nothing. -/
def search_enforcement_actions (target agency source_info : String) :
    List EnforcementAction :=
  if py_in "defi" (py_lower target) || py_in "crypto" (py_lower target) then
    [{ agency := agency
       action_type := "Investigation"
       date := "2024-01-15"
       description := "Ongoing investigation into " ++ target ++
         " for potential securities violations"
       url := source_info ++ "/case-" ++ py_lower target
       severity := "MEDIUM" }]
  else []

/-- Model of `_search_court_records` (compliance_checker_agent.py:698-704): always
returns the empty list. -/
def search_court_records (_target : String) : List EnforcementAction := []

/-- Model of `_calculate_enforcement_risk_level` (compliance_checker_agent.py:723-736):
`LOW` on no actions, `HIGH` if any HIGH severity, else `MEDIUM` if any
MEDIUM severity, else `LOW`. -/
def calculate_enforcement_risk_level (actions : List EnforcementAction) : String :=
  if actions.isEmpty then "LOW"
  else if actions.any (fun a => a.severity = "HIGH") then "HIGH"
  else if actions.any (fun a => a.severity = "MEDIUM") then "MEDIUM"
  else "LOW"

/-- The `enforcement_results` dict of `_enforcement_action_check`
(compliance_checker_agent.py:336-342); the wall-clock `check_date` is
omitted. -/
structure EnforcementResults where
  target : String
  actions : List EnforcementAction
  agencies_checked : List String
  risk_level : String
deriving Repr, DecidableEq

/-- Model of `_enforcement_action_check` up to line 362: the assembled
`enforcement_results`.  `_search_enforcement_actions` and
`_search_court_records` are total, so every configured agency is checked and
no per-agency error entry is produced. -/
def build_enforcement_results (target : String) : EnforcementResults :=
  let actions := enforcement_sources.flatMap
    (fun src => search_enforcement_actions target src.1 src.2) ++
    search_court_records target
  { target := target
    actions := actions
    agencies_checked := enforcement_sources.map Prod.fst
    risk_level := calculate_enforcement_risk_level actions }

/-- The helper `_format_enforcement_results` is called at
compliance_checker_agent.py:367 but is defined nowhere in
`ComplianceCheckerAgent` nor in `BaseAgent`; the call raises
`AttributeError`.  (`_get_ai_enforcement_analysis`, called just before,
is total: `_call_ai_model` catches every exception and returns a string,
base_agent.py:96-137.) -/
def format_enforcement_results : EnforcementResults → Except String String :=
  fun _ => .error
    "ComplianceCheckerAgent object has no attribute _format_enforcement_results"

/-- Model of `_enforcement_action_check` (compliance_checker_agent.py:324-387): the
undefined results formatter always sends the call into the `except` branch,
so the returned dict has `success=False` and no `data` key. -/
def enforcement_action_check (target : String) : ScreenerResult EnforcementResults :=
  let enforcement_results := build_enforcement_results target
  match format_enforcement_results enforcement_results with
  | .ok formatted_results =>
      { success := true, content := formatted_results, data := some enforcement_results }
  | .error e =>
      { success := false, content := "Error in enforcement action check: " ++ e, data := none }

/-- The jurisdiction restriction table, `self.restricted_jurisdictions`
(compliance_checker_agent.py:89-93), in insertion order. -/
def restricted_jurisdictions : List (String × List String) :=
  [("HIGH_RISK",
    ["AF", "BY", "MM", "CF", "CN", "CU", "IR", "IQ", "LB", "LY", "ML", "NI",
     "KP", "RU", "SO", "SS", "SD", "SY", "UA", "VE", "YE", "ZW"]),
   ("MEDIUM_RISK",
    ["BD", "BO", "KH", "EC", "EG", "GH", "GT", "HT", "JM", "JO", "KE", "LA",
     "MV", "MZ", "NP", "NI", "PK", "PH", "LK", "TZ", "TH", "TN", "TR", "UG",
     "VN", "ZM"]),
   ("REGULATORY_RESTRICTED", ["US", "CN", "KR", "JP", "IN"])]

/-- One entry of `jurisdiction_results['restricted_jurisdictions']`
(compliance_checker_agent.py:931-941). -/
structure RestrictionInfo where
  jurisdiction : String
  risk_level : String
  restrictions : List String
  compliance_requirements : List String
deriving Repr, DecidableEq

/-- Model of `_analyze_jurisdiction_restriction` (compliance_checker_agent.py:931-941):
only `US` and `CN` produce a restriction record; the record's content is
static. -/
def analyze_jurisdiction_restriction (_target jurisdiction risk_level : String) :
    Option RestrictionInfo :=
  if jurisdiction = "US" || jurisdiction = "CN" then
    some { jurisdiction := jurisdiction
           risk_level := risk_level
           restrictions := ["KYC requirements", "Licensing requirements"]
           compliance_requirements := ["AML procedures", "Regulatory reporting"] }
  else none

/-- The `jurisdiction_results` dict of `_jurisdiction_analysis`
(compliance_checker_agent.py:401-408) at the point where the call fails
(see `jurisdiction_analysis` below); the wall-clock `analysis_date` is
omitted and `regulatory_requirements` is the static dict of
`_check_regulatory_requirements` (compliance_checker_agent.py:943-950). -/
structure JurisdictionResults where
  target : String
  restricted : List RestrictionInfo
  regulatory_requirements : List (String × String)
  compliance_recommendations : List String
  risk_level : String
deriving Repr, DecidableEq

/-- The helper `_generate_jurisdiction_recommendations` is called at
compliance_checker_agent.py:422 but is defined nowhere in
`ComplianceCheckerAgent` nor in `BaseAgent`; the call raises
`AttributeError` before the jurisdiction risk level is ever computed. -/
def generate_jurisdiction_recommendations : JurisdictionResults → Except String (List String) :=
  fun _ => .error
    "ComplianceCheckerAgent object has no attribute _generate_jurisdiction_recommendations"

/-- Model of `_jurisdiction_analysis` (compliance_checker_agent.py:389-451): the
restriction table is scanned (lines 411-415), the static regulatory
requirements attached (line 418), and then the undefined recommendations
generator raises, so every call returns `success=False` with no `data`
key. -/
def jurisdiction_analysis (target : String) : ScreenerResult JurisdictionResults :=
  let restricted := restricted_jurisdictions.flatMap (fun tier =>
    tier.2.filterMap (fun j => analyze_jurisdiction_restriction target j tier.1))
  let jurisdiction_results : JurisdictionResults :=
    { target := target
      restricted := restricted
      regulatory_requirements :=
        [("securities_law", "May require securities registration"),
         ("aml_requirements", "AML compliance required for US operations"),
         ("licensing", "Money transmitter license may be required")]
      compliance_recommendations := []
      risk_level := "LOW" }
  match generate_jurisdiction_recommendations jurisdiction_results with
  | .ok _ =>
      { success := true, content := "", data := some jurisdiction_results }
  | .error e =>
      { success := false, content := "Error in jurisdiction analysis: " ++ e, data := none }

/-- The helper `_calculate_entity_risk_level` is called at
compliance_checker_agent.py:220 (once per affiliated entity) but is defined
nowhere in `ComplianceCheckerAgent` nor in `BaseAgent`; the call raises
`AttributeError`. -/
def calculate_entity_risk_level : Option ScreeningResults → Except String String :=
  fun _ => .error
    "ComplianceCheckerAgent object has no attribute _calculate_entity_risk_level"

/-- One entry of `compliance_results['affiliated_entities']`
(compliance_checker_agent.py:217-221). -/
structure AffiliateEntry where
  name : String
  sanctions_check : Option ScreeningResults
  risk_level : String
deriving Repr, DecidableEq

/-- The `compliance_results` dict of `_full_compliance_check`
(compliance_checker_agent.py:189-198).  Each category field holds
`<category>_result.get('data', {})`: `none` models the empty dict stored
when the category screener returned no `data` key.  The wall-clock
`check_date` is omitted. -/
structure ComplianceResults where
  target : String
  sanctions_screening : Option ScreeningResults
  enforcement_actions : Option EnforcementResults
  jurisdiction_analysis : Option JurisdictionResults
  affiliated_entities : List AffiliateEntry
  overall_risk_level : String
  recommendations : List String
deriving Repr, DecidableEq

/-- The extraction `compliance_results.get('sanctions_screening', {}).get('risk_level', 'LOW')`
(compliance_checker_agent.py:743). -/
def sanctions_risk_of (cr : ComplianceResults) : String :=
  match cr.sanctions_screening with
  | some sr => sr.risk_level
  | none => "LOW"

/-- The extraction `compliance_results.get('enforcement_actions', {}).get('risk_level', 'LOW')`
(compliance_checker_agent.py:747). -/
def enforcement_risk_of (cr : ComplianceResults) : String :=
  match cr.enforcement_actions with
  | some er => er.risk_level
  | none => "LOW"

/-- The extraction `compliance_results.get('jurisdiction_analysis', {}).get('risk_level', 'LOW')`
(compliance_checker_agent.py:751). -/
def jurisdiction_risk_of (cr : ComplianceResults) : String :=
  match cr.jurisdiction_analysis with
  | some jr => jr.risk_level
  | none => "LOW"

/-- Model of `_calculate_overall_risk_level` (compliance_checker_agent.py:738-762):
collect the three category risk levels (defaulting each to `LOW` when the
category dict is empty or lacks the key) and return `CRITICAL`/`HIGH`/
`MEDIUM`/`LOW` by membership precedence. -/
def calculate_overall_risk_level (cr : ComplianceResults) : String :=
  let risk_factors := [sanctions_risk_of cr, enforcement_risk_of cr, jurisdiction_risk_of cr]
  if risk_factors.contains "CRITICAL" then "CRITICAL"
  else if risk_factors.contains "HIGH" then "HIGH"
  else if risk_factors.contains "MEDIUM" then "MEDIUM"
  else "LOW"

/-- Model of `_generate_compliance_recommendations` (compliance_checker_agent.py:952-971):
conditional recommendations followed by the standing pair.  The Python
truthiness tests `compliance_results['sanctions_screening'].get('matches')`
and `...['enforcement_actions'].get('actions')` are false exactly when the
category dict is empty or the list is empty. -/
def generate_compliance_recommendations (cr : ComplianceResults) : List String :=
  let has_matches := match cr.sanctions_screening with
    | some sr => !sr.match_list.isEmpty
    | none => false
  let has_actions := match cr.enforcement_actions with
    | some er => !er.actions.isEmpty
    | none => false
  (if cr.overall_risk_level = "HIGH" || cr.overall_risk_level = "CRITICAL" then
    ["Immediate legal review required",
     "Consider enhanced due diligence procedures"]
   else []) ++
  (if has_matches then
    ["Review sanctions matches with compliance officer",
     "Implement sanctions screening procedures"]
   else []) ++
  (if has_actions then
    ["Monitor ongoing enforcement developments",
     "Consider regulatory engagement strategy"]
   else []) ++
  ["Implement continuous monitoring system",
   "Document compliance procedures and decisions"]

/-- The affiliated-entities loop of `_full_compliance_check`
(compliance_checker_agent.py:213-221): each affiliated name is screened via
`_sanctions_screening`, then `_calculate_entity_risk_level` is called on its
`data`; since that helper is undefined, the first affiliate aborts the
enclosing `try` block. -/
def process_affiliates (sources : SourceOutcome) :
    List String → Except String (List AffiliateEntry)
  | [] => .ok []
  | entity :: rest => do
      let entity_check := sanctions_screening entity sources
      let rl ← calculate_entity_risk_level entity_check.data
      let others ← process_affiliates sources rest
      .ok ({ name := entity, sanctions_check := entity_check.data, risk_level := rl } :: others)

/-- The `parameters` dict of a full compliance check; only the
`affiliated_entities` key is ever read (compliance_checker_agent.py:213). -/
structure Params where
  affiliated_entities : List String := []
deriving Repr, DecidableEq

/-- The body of the `try` block of `_full_compliance_check`
(compliance_checker_agent.py:187-247): run the three category screeners,
store each one's `data` (or `{}`), process affiliated entities, then compute
the overall risk level and the recommendations.  The AI narrative
(`_get_ai_compliance_analysis`) and the report formatter
(`_format_compliance_report`) are total string producers whose output feeds
only the free-text `content`, which no logic here consumes; they are
omitted. -/
def full_compliance_check_aux (target : String) (parameters : Params)
    (sources : SourceOutcome) : Except String ComplianceResults := do
  let sanctions_result := sanctions_screening target sources
  let enforcement_result := enforcement_action_check target
  let jurisdiction_result := jurisdiction_analysis target
  let affiliated ← process_affiliates sources parameters.affiliated_entities
  let cr : ComplianceResults :=
    { target := target
      sanctions_screening := sanctions_result.data
      enforcement_actions := enforcement_result.data
      jurisdiction_analysis := jurisdiction_result.data
      affiliated_entities := affiliated
      overall_risk_level := "UNKNOWN"
      recommendations := [] }
  let overall := calculate_overall_risk_level cr
  let cr := { cr with overall_risk_level := overall }
  .ok { cr with recommendations := generate_compliance_recommendations cr }

/-- The dict returned by `_full_compliance_check`
(compliance_checker_agent.py:234-254): `success=True` with the
`compliance_results` under `data` on the normal path, `success=False`
without a `data` key on the `except` path. -/
structure FullCheckResult where
  success : Bool
  data : Option ComplianceResults
deriving Repr, DecidableEq

/-- Model of `_full_compliance_check` (compliance_checker_agent.py:176-254). -/
def full_compliance_check (target : String) (parameters : Params)
    (sources : SourceOutcome) : FullCheckResult :=
  match full_compliance_check_aux target parameters sources with
  | .ok cr => { success := true, data := some cr }
  | .error _ => { success := false, data := none }

/-- The `SanctionsEntity` dataclass of the data manager
(sanctions_data_manager.py:25-41).  The sequence fields not read by
`_store_entities`' stored columns beyond JSON round-tripping
(`addresses`, `identifiers`, `dates_of_birth`, `places_of_birth`,
`nationalities`, `crypto_addresses`, `last_updated`) are omitted: no claim
and no statistic consulted here reads them. -/
structure SanctionsEntity where
  uid : String
  name : String
  entity_type : String := ""
  program : String := ""
  source_list : String
  aliases : List String := []
  remarks : String := ""
deriving Repr, DecidableEq

/-- One row of the `sanctions_entities` table
(sanctions_data_manager.py:104-122); `uid` is the primary key. -/
structure DBRow where
  uid : String
  name : String
  entity_type : String
  program : String
  source_list : String
  aliases : List String
  remarks : String
  search_text : String
deriving Repr, DecidableEq

/-- The row that `_store_entities` inserts for one entity
(sanctions_data_manager.py:226-250): every column comes from the entity
itself — in particular `source_list` is `entity.source_list`, not the
`source_name` argument of the call. -/
def row_of_entity (entity : SanctionsEntity) : DBRow :=
  { uid := entity.uid
    name := entity.name
    entity_type := entity.entity_type
    program := entity.program
    source_list := entity.source_list
    aliases := entity.aliases
    remarks := entity.remarks
    search_text := entity.name ++ " " ++ String.intercalate " " entity.aliases
      ++ " " ++ entity.remarks }

/-- SQLite `INSERT OR REPLACE` keyed on the `uid` primary key: any existing
row with the same `uid` — whatever its `source_list` — is replaced. -/
def insert_or_replace (db : List DBRow) (r : DBRow) : List DBRow :=
  db.filter (fun x => !(x.uid = r.uid : Bool)) ++ [r]

/-- Model of `_store_entities` (sanctions_data_manager.py:215-260): delete every row
whose `source_list` equals `source_name`, then `INSERT OR REPLACE` one row
per input entity.  (The per-entity `try`/`except` never fires for
well-typed entities: building `search_text` and `json.dumps` of lists of
strings cannot raise.) -/
def store_entities (db : List DBRow) (entities : List SanctionsEntity)
    (source_name : String) : List DBRow :=
  let db1 := db.filter (fun x => !(x.source_list = source_name : Bool))
  entities.foldl (fun d entity => insert_or_replace d (row_of_entity entity)) db1

/-- The per-source count reported by `get_statistics` under
`entities_by_source` (sanctions_data_manager.py:346-351): the number of
stored rows whose `source_list` column equals `src` (`0` stands for the key
being absent from the `GROUP BY` result). -/
def count_by_source (db : List DBRow) (src : String) : Nat :=
  (db.filter (fun r => (r.source_list = src : Bool))).length

/-- Specification-side rank of a risk level on the ordered scale
`LOW < MEDIUM < HIGH < CRITICAL` (spec §4.4). -/
def spec_level_rank (s : String) : Nat :=
  if s = "CRITICAL" then 3
  else if s = "HIGH" then 2
  else if s = "MEDIUM" then 1
  else 0

/-- Specification-side inverse of `spec_level_rank`. -/
def spec_rank_level : Nat → String
  | 3 => "CRITICAL"
  | 2 => "HIGH"
  | 1 => "MEDIUM"
  | _ => "LOW"

/-- The four risk levels of the ordered scale. -/
def risk_levels : List String := ["LOW", "MEDIUM", "HIGH", "CRITICAL"]

/-- Helper lemma: `screen_sources` distributes over concatenation of source segments. -/
theorem screen_sources_append (target : String)
    (xs ys : List (String × Except String (List WatchEntity))) :
    screen_sources target (xs ++ ys) =
      ((screen_sources target xs).1 ++ (screen_sources target ys).1,
       (screen_sources target xs).2.1 ++ (screen_sources target ys).2.1,
       (screen_sources target xs).2.2 ++ (screen_sources target ys).2.2) := by
  induction xs with
  | nil => simp [screen_sources]
  | cons x xs ih =>
    obtain ⟨n, r⟩ := x
    cases r <;> simp [screen_sources, ih]

/-- C3: for every (in particular every non-empty) target and every source
configuration, `_sanctions_screening` returns `success=False` and a result
dict with no `data` key: the unconditional call to the undefined
`_format_sanctions_screening_results` raises `AttributeError`, so the
`except` branch is always taken.  The `parameters` dict is never read by the
method. -/
theorem sanctions_screening_always_fails (target : String) (sources : SourceOutcome)
    (_h : target ≠ "") :
    (sanctions_screening target sources).success = false ∧
    (sanctions_screening target sources).data = none :=
  ⟨rfl, rfl⟩

/-- Witness for `sanctions_screening_always_fails` at a concrete non-empty
target. -/
theorem sanctions_screening_always_fails_witness :
    ("tornado.cash" : String) ≠ "" ∧
    (sanctions_screening "tornado.cash" []).success = false ∧
    (sanctions_screening "tornado.cash" []).data = none :=
  ⟨by decide, sanctions_screening_always_fails "tornado.cash" [] (by decide)⟩

/-- C1 counterexample: for the target `"tornado.cash"` with no watchlist
source producing a match, the screening risk level is `LOW`, yet the
aggregated match list (which contains the crypto-denylist match, of risk
`HIGH`) would give `CRITICAL` under the precedence rule — the claim that
the reported risk level equals the precedence rule applied to the full
aggregate (and that a denylisted target yields `CRITICAL`) is false. -/
theorem screening_risk_level_ignores_crypto_counterexample :
    (build_screening_results "tornado.cash" []).risk_level = "LOW" ∧
    (build_screening_results "tornado.cash" []).match_list ≠ [] ∧
    calculate_sanctions_risk_level
      (build_screening_results "tornado.cash" []).match_list = "CRITICAL" := by
  refine ⟨rfl, ?_, rfl⟩
  decide

/-- C1 amended: the screening `risk_level` equals the precedence rule
applied to the watchlist-source matches alone; the crypto-denylist matches
are appended to the aggregate only after `risk_level` has been computed and
never influence it. -/
theorem screening_risk_level_from_watchlist_only (target : String)
    (sources : SourceOutcome) :
    (build_screening_results target sources).match_list =
      (screen_sources target sources).2.1 ++ check_crypto_specific_sanctions target ∧
    (build_screening_results target sources).risk_level =
      calculate_sanctions_risk_level (screen_sources target sources).2.1 :=
  ⟨rfl, rfl⟩

/-- C4 counterexample: with one queryable source (producing the seeded
match) and one failed source, the per-source error is recorded and the
queryable source is checked, yet the call still returns `success=False` —
refuting "returns success=true ... as long as at least one source was
queryable". -/
theorem partial_failure_counterexample :
    (build_screening_results "Sample Sanctioned Entity"
      [("OFAC_SDN", Except.ok [{ name := "Sample Sanctioned Entity" }]),
       ("UN_SC", Except.error "SourceUnavailable")]).lists_checked = ["OFAC_SDN"] ∧
    (build_screening_results "Sample Sanctioned Entity"
      [("OFAC_SDN", Except.ok [{ name := "Sample Sanctioned Entity" }]),
       ("UN_SC", Except.error "SourceUnavailable")]).source_errors =
      [("UN_SC", "SourceUnavailable")] ∧
    (build_screening_results "Sample Sanctioned Entity"
      [("OFAC_SDN", Except.ok [{ name := "Sample Sanctioned Entity" }]),
       ("UN_SC", Except.error "SourceUnavailable")]).match_list ≠ [] ∧
    (sanctions_screening "Sample Sanctioned Entity"
      [("OFAC_SDN", Except.ok [{ name := "Sample Sanctioned Entity" }]),
       ("UN_SC", Except.error "SourceUnavailable")]).success = false := by
  refine ⟨by decide, by decide, by decide, rfl⟩

/-- C4 amended: a failed source's lookup is recorded as a per-source error
entry and does not abort the remaining sources — the lists checked, the
matches and the risk level are exactly those obtained with the failed
source removed — but the screening call always returns `success=False`
regardless of how many sources were queryable, because the undefined
results formatter raises after the loop. -/
theorem source_failure_isolated (target name e : String)
    (pre post : List (String × Except String (List WatchEntity))) :
    (build_screening_results target (pre ++ (name, Except.error e) :: post)).lists_checked =
      (build_screening_results target (pre ++ post)).lists_checked ∧
    (build_screening_results target (pre ++ (name, Except.error e) :: post)).match_list =
      (build_screening_results target (pre ++ post)).match_list ∧
    (build_screening_results target (pre ++ (name, Except.error e) :: post)).risk_level =
      (build_screening_results target (pre ++ post)).risk_level ∧
    (name, e) ∈
      (build_screening_results target (pre ++ (name, Except.error e) :: post)).source_errors ∧
    (sanctions_screening target (pre ++ (name, Except.error e) :: post)).success = false := by
  have hsplit := screen_sources_append target pre ((name, Except.error e) :: post)
  have hsplit' := screen_sources_append target pre post
  refine ⟨?_, ?_, ?_, ?_, rfl⟩ <;>
    simp [build_screening_results, hsplit, hsplit', screen_sources]

/-- C5 counterexample: an entity whose alias list contains `"Y"` produces
NO match for the target `"y"`, even though the normalized target equals the
normalized alias — `_match_against_sanctions_list` never consults
aliases. -/
theorem alias_equal_target_no_match_counterexample :
    match_against_sanctions_list "y" [{ name := "X", aliases := ["Y"] }] "OFAC_SDN" = [] ∧
    py_lower "y" = py_lower "Y" := by
  constructor
  · decide
  · decide

/-- C5 amended: matching consults only the canonical `name` of each entity:
for a single candidate entity, a match is emitted exactly when the
normalized target equals the normalized name or passes the
substring-plus-similarity test against the name; the `matchType` `alias`
reserved by the data model is never produced. -/
theorem matcher_never_uses_aliases (target : String) (e : WatchEntity) (ln : String) :
    (∀ m ∈ match_against_sanctions_list target [e] ln, m.match_type ≠ "alias") ∧
    (match_against_sanctions_list target [e] ln ≠ [] ↔
      (py_lower target = py_lower e.name ∨
        ((py_in (py_lower target) (py_lower e.name) ||
          py_in (py_lower e.name) (py_lower target)) = true ∧
         calculate_similarity (py_lower target) (py_lower e.name) > 8/10))) := by
  unfold match_against_sanctions_list
  simp only [List.flatMap_cons, List.flatMap_nil, List.append_nil]
  by_cases h1 : py_lower target = py_lower e.name
  · simp [h1]
  · rw [if_neg h1]
    by_cases h2 : (py_in (py_lower target) (py_lower e.name) ||
        py_in (py_lower e.name) (py_lower target)) = true
    · rw [if_pos h2]
      by_cases h3 : calculate_similarity (py_lower target) (py_lower e.name) > 8/10
      · simp [h1, h2, h3]
      · simp [h1, h2, h3]
    · rw [if_neg h2]
      simp [h1, h2]

/-- C6: whenever the three extracted category risk levels lie in
{LOW, MEDIUM, HIGH, CRITICAL}, `_calculate_overall_risk_level` returns
their maximum under `LOW < MEDIUM < HIGH < CRITICAL`; a missing category
dict extracts to `LOW` (last three conjuncts), so it is treated as
`LOW`. -/
theorem overall_risk_level_is_max (cr : ComplianceResults)
    (hs : sanctions_risk_of cr ∈ risk_levels)
    (he : enforcement_risk_of cr ∈ risk_levels)
    (hj : jurisdiction_risk_of cr ∈ risk_levels) :
    calculate_overall_risk_level cr =
      spec_rank_level (max (spec_level_rank (sanctions_risk_of cr))
        (max (spec_level_rank (enforcement_risk_of cr))
          (spec_level_rank (jurisdiction_risk_of cr)))) ∧
    sanctions_risk_of { cr with sanctions_screening := none } = "LOW" ∧
    enforcement_risk_of { cr with enforcement_actions := none } = "LOW" ∧
    jurisdiction_risk_of { cr with jurisdiction_analysis := none } = "LOW" := by
  refine ⟨?_, rfl, rfl, rfl⟩
  simp only [risk_levels, List.mem_cons, List.not_mem_nil, or_false] at hs he hj
  unfold calculate_overall_risk_level
  rcases hs with h1|h1|h1|h1 <;> rcases he with h2|h2|h2|h2 <;>
    rcases hj with h3|h3|h3|h3 <;> rw [h1, h2, h3] <;> rfl

/-- Witness for `overall_risk_level_is_max`: sanctions category missing
(treated as LOW), enforcement HIGH, jurisdiction MEDIUM; the overall level
is HIGH, the maximum. -/
theorem overall_risk_level_is_max_witness :
    calculate_overall_risk_level
      { target := "t", sanctions_screening := none,
        enforcement_actions := some
          { target := "t", actions := [], agencies_checked := [], risk_level := "HIGH" },
        jurisdiction_analysis := some
          { target := "t", restricted := [], regulatory_requirements := [],
            compliance_recommendations := [], risk_level := "MEDIUM" },
        affiliated_entities := [], overall_risk_level := "UNKNOWN",
        recommendations := [] } =
      spec_rank_level (max (spec_level_rank "LOW")
        (max (spec_level_rank "HIGH") (spec_level_rank "MEDIUM"))) :=
  (overall_risk_level_is_max _ (by decide) (by decide) (by decide)).1

/-- C7 counterexample: `_calculate_similarity("", "")` is `0.0`, not `1.0`
(the empty-string guard fires before the self-similarity computation), so
`similarity(t, t) = 1.0` fails at `t = ""`. -/
theorem similarity_empty_counterexample :
    calculate_similarity "" "" = 0 ∧ calculate_similarity "" "" ≠ 1 := by
  constructor
  · rfl
  · intro h
    exact absurd h (by decide)

/-- C7 amended: for every NON-EMPTY target `t`, `_calculate_similarity(t, t)
= 1.0`; and an entity whose lower-cased name equals the lower-cased target
yields exactly the `exact / 1.0 / HIGH` match. -/
theorem similarity_self_and_exact_match (t : String) (ht : t ≠ "")
    (target : String) (e : WatchEntity) (ln : String)
    (he : py_lower target = py_lower e.name) :
    calculate_similarity t t = 1 ∧
    match_against_sanctions_list target [e] ln =
      [{ entity_name := e.name, match_type := "exact", sanctions_list := ln,
         match_score := 1, details := .entity e, risk_level := "HIGH" }] := by
  constructor
  · have hd : t.data ≠ [] := by
      intro h
      apply ht
      cases t
      simp_all
    unfold calculate_similarity
    have hne : t.data.isEmpty = false := by
      cases hdata : t.data with
      | nil => exact absurd hdata hd
      | cons a l => rfl
    rw [hne]
    simp only [Bool.false_or, Bool.or_self, if_false]
    have hfilter : t.toList.filter (fun c => t.toList.contains c) = t.toList := by
      rw [List.filter_eq_self]
      intro a ha
      have ha' : a ∈ t.data := by simpa [String.toList] using ha
      simp [List.contains, List.elem_iff, ha']
    have hlen : t.toList.length ≠ 0 := by
      simpa [String.toList] using fun h => hd (List.eq_nil_of_length_eq_zero h)
    rw [hfilter]
    simp only [max_self]
    rw [if_neg hlen]
    exact div_self (by exact_mod_cast hlen)
  · unfold match_against_sanctions_list
    simp [he]

/-- Witness for `similarity_self_and_exact_match` at concrete inputs. -/
theorem similarity_self_and_exact_match_witness :
    ("Tornado Cash" : String) ≠ "" ∧
    py_lower "Tornado Cash" = py_lower "tornado cash" ∧
    (calculate_similarity "Tornado Cash" "Tornado Cash" = 1 ∧
      match_against_sanctions_list "Tornado Cash" [{ name := "tornado cash" }] "OFAC_SDN" =
        [{ entity_name := "tornado cash", match_type := "exact",
           sanctions_list := "OFAC_SDN", match_score := 1,
           details := .entity { name := "tornado cash" }, risk_level := "HIGH" }]) :=
  ⟨by decide, by decide,
    similarity_self_and_exact_match "Tornado Cash" (by decide)
      "Tornado Cash" { name := "tornado cash" } "OFAC_SDN" (by decide)⟩

/-- C8: for a candidate whose normalized name differs from the normalized
target, a match is emitted iff one normalized string is a substring of the
other and the similarity exceeds `0.8`; the emitted match is `fuzzy` with
risk `MEDIUM` when the score exceeds `0.9` and `LOW` otherwise, and no
match is emitted below the substring test or the `0.8` floor. -/
theorem fuzzy_match_characterization (target : String) (e : WatchEntity) (ln : String)
    (h : py_lower target ≠ py_lower e.name) :
    match_against_sanctions_list target [e] ln =
      (if (py_in (py_lower target) (py_lower e.name) ||
            py_in (py_lower e.name) (py_lower target)) = true ∧
          calculate_similarity (py_lower target) (py_lower e.name) > 8/10 then
        [{ entity_name := e.name, match_type := "fuzzy", sanctions_list := ln,
           match_score := calculate_similarity (py_lower target) (py_lower e.name),
           details := .entity e,
           risk_level :=
             if calculate_similarity (py_lower target) (py_lower e.name) > 9/10
             then "MEDIUM" else "LOW" }]
      else []) := by
  unfold match_against_sanctions_list
  simp only [List.flatMap_cons, List.flatMap_nil, List.append_nil]
  rw [if_neg h]
  by_cases h2 : (py_in (py_lower target) (py_lower e.name) ||
      py_in (py_lower e.name) (py_lower target)) = true
  · rw [if_pos h2]
    by_cases h3 : calculate_similarity (py_lower target) (py_lower e.name) > 8/10
    · rw [if_pos h3]
      exact (if_pos ⟨h2, h3⟩).symm
    · rw [if_neg h3]
      exact (if_neg (fun hc => h3 hc.2)).symm
  · rw [if_neg h2]
    exact (if_neg (fun hc => h2 hc.1)).symm

/-- Witness for `fuzzy_match_characterization`: nine `a`s against ten `a`s
gives similarity `9/10 > 8/10` and a `fuzzy`/`LOW` match. -/
theorem fuzzy_match_characterization_witness :
    py_lower "aaaaaaaaa" ≠ py_lower "aaaaaaaaaa" ∧
    match_against_sanctions_list "aaaaaaaaa" [{ name := "aaaaaaaaaa" }] "OFAC_SDN" =
      (if (py_in (py_lower "aaaaaaaaa") (py_lower "aaaaaaaaaa") ||
            py_in (py_lower "aaaaaaaaaa") (py_lower "aaaaaaaaa")) = true ∧
          calculate_similarity (py_lower "aaaaaaaaa") (py_lower "aaaaaaaaaa") > 8/10 then
        [{ entity_name := "aaaaaaaaaa", match_type := "fuzzy", sanctions_list := "OFAC_SDN",
           match_score := calculate_similarity (py_lower "aaaaaaaaa") (py_lower "aaaaaaaaaa"),
           details := .entity { name := "aaaaaaaaaa" },
           risk_level :=
             if calculate_similarity (py_lower "aaaaaaaaa") (py_lower "aaaaaaaaaa") > 9/10
             then "MEDIUM" else "LOW" }]
      else []) :=
  ⟨by decide,
    fuzzy_match_characterization "aaaaaaaaa" { name := "aaaaaaaaaa" } "OFAC_SDN" (by decide)⟩

/-- C2 counterexample (spec's end-to-end scenario C): with one affiliated
entity `"Sanctioned Person"` that exact-matches a seeded watchlist entity,
`_full_compliance_check("Protocol X", ...)` returns `success=False` with no
`data` key — no report and no `overall_risk_level` is produced at all,
refuting "the report's overall_risk_level is greater than or equal to every
affiliate's risk level" and "drives the overall report to at least
CRITICAL". -/
theorem affiliate_folding_counterexample :
    (full_compliance_check "Protocol X" { affiliated_entities := ["Sanctioned Person"] }
      [("OFAC_SDN", Except.ok [{ name := "Sanctioned Person" }])]).success = false ∧
    (full_compliance_check "Protocol X" { affiliated_entities := ["Sanctioned Person"] }
      [("OFAC_SDN", Except.ok [{ name := "Sanctioned Person" }])]).data = none :=
  ⟨rfl, rfl⟩

/-- C2 amended: affiliated-entity risk is never folded into the overall
risk level.  Whenever the parameters contain at least one affiliated entity
name, the whole check aborts with `success=False` and no `data` key (the
per-affiliate helper `_calculate_entity_risk_level` is undefined and
raises); moreover `_calculate_overall_risk_level` reads only the three
category results and is invariant under the `affiliated_entities` field. -/
theorem affiliates_abort_full_check (target : String) (parameters : Params)
    (sources : SourceOutcome) (h : parameters.affiliated_entities ≠ []) :
    (full_compliance_check target parameters sources).success = false ∧
    (full_compliance_check target parameters sources).data = none ∧
    (∀ (cr : ComplianceResults) (affs : List AffiliateEntry),
      calculate_overall_risk_level { cr with affiliated_entities := affs } =
        calculate_overall_risk_level cr) := by
  obtain ⟨l⟩ := parameters
  cases l with
  | nil => exact absurd rfl h
  | cons a rest =>
    exact ⟨rfl, rfl, fun cr affs => rfl⟩

/-- Witness for `affiliates_abort_full_check` at the scenario-C input. -/
theorem affiliates_abort_full_check_witness :
    (Params.mk ["Sanctioned Person"]).affiliated_entities ≠ [] ∧
    ((full_compliance_check "Protocol X" (Params.mk ["Sanctioned Person"])
        [("OFAC_SDN", Except.ok [{ name := "Sanctioned Person" }])]).success = false ∧
      (full_compliance_check "Protocol X" (Params.mk ["Sanctioned Person"])
        [("OFAC_SDN", Except.ok [{ name := "Sanctioned Person" }])]).data = none ∧
      (∀ (cr : ComplianceResults) (affs : List AffiliateEntry),
        calculate_overall_risk_level { cr with affiliated_entities := affs } =
          calculate_overall_risk_level cr)) :=
  ⟨by decide,
    affiliates_abort_full_check "Protocol X" (Params.mk ["Sanctioned Person"])
      [("OFAC_SDN", Except.ok [{ name := "Sanctioned Person" }])] (by decide)⟩

/-- C10: for every target and every watchlist/source configuration, a full
compliance check with no affiliated entities succeeds with
`overall_risk_level = LOW` and exactly the two standing recommendations:
each category screener fails internally (its formatter or recommendation
helper is undefined), so every category dict is empty, every category risk
level defaults to LOW, no sanctions matches or enforcement actions are
visible, and only the standing recommendation pair is emitted — independent
of the watchlist contents and of any denylisted crypto service in the
target. -/
theorem full_check_no_affiliates_low (target : String) (sources : SourceOutcome) :
    (full_compliance_check target { affiliated_entities := [] } sources).success = true ∧
    (full_compliance_check target { affiliated_entities := [] } sources).data.map
        (fun cr => (cr.overall_risk_level, cr.recommendations)) =
      some ("LOW", ["Implement continuous monitoring system",
                    "Document compliance procedures and decisions"]) :=
  ⟨rfl, rfl⟩

/-- Rows of one source, as counted by `get_statistics`. -/
theorem count_by_source_eq_length_filter (db : List DBRow) (src : String) :
    count_by_source db src =
      (db.filter (fun r => (r.source_list = src : Bool))).length := rfl

/-- Inserting a row whose `source_list` differs from `B` and whose `uid`
occurs in no `B` row of the table leaves the `B` rows unchanged. -/
theorem insert_or_replace_preserves_other_source (db : List DBRow) (r : DBRow)
    (B : String) (hsrc : r.source_list ≠ B)
    (huid : ∀ x ∈ db, x.source_list = B → x.uid ≠ r.uid) :
    (insert_or_replace db r).filter (fun x => (x.source_list = B : Bool)) =
      db.filter (fun x => (x.source_list = B : Bool)) := by
  unfold insert_or_replace
  rw [List.filter_append, List.filter_filter]
  have h1 : List.filter (fun x => (x.source_list = B : Bool)) [r] = [] := by
    simp [hsrc]
  rw [h1, List.append_nil]
  apply List.filter_congr
  intro x hx
  by_cases hB : x.source_list = B
  · simp [hB, huid x hx hB]
  · simp [hB]

/-- The insertion fold of `_store_entities` leaves the rows of a source `B`
unchanged provided every inserted entity belongs to a different source and
collides with no `B` row. -/
theorem store_fold_preserves_other_source (entities : List SanctionsEntity)
    (B : String) :
    ∀ acc : List DBRow,
    (∀ ent ∈ entities, ent.source_list ≠ B) →
    (∀ ent ∈ entities, ∀ x ∈ acc, x.source_list = B → x.uid ≠ ent.uid) →
    (entities.foldl (fun d entity => insert_or_replace d (row_of_entity entity)) acc).filter
        (fun x => (x.source_list = B : Bool)) =
      acc.filter (fun x => (x.source_list = B : Bool)) := by
  induction entities with
  | nil => intro acc _ _; rfl
  | cons e rest ih =>
    intro acc hsrc huid
    rw [List.foldl_cons]
    have hstep := insert_or_replace_preserves_other_source acc (row_of_entity e) B
      (hsrc e (List.mem_cons_self e rest))
      (fun x hx hB => huid e (List.mem_cons_self e rest) x hx hB)
    rw [ih (insert_or_replace acc (row_of_entity e))
      (fun ent hent => hsrc ent (List.mem_cons_of_mem e hent))
      ?_, hstep]
    intro ent hent x hx hB
    have hx' : x ∈ acc.filter (fun y => !(y.uid = (row_of_entity e).uid : Bool)) ∨
        x = row_of_entity e := by
      unfold insert_or_replace at hx
      rcases List.mem_append.mp hx with h | h
      · exact Or.inl h
      · exact Or.inr (List.mem_singleton.mp h)
    rcases hx' with h | h
    · exact huid ent (List.mem_cons_of_mem e hent) x (List.mem_filter.mp h).1 hB
    · subst h
      exact absurd hB (hsrc e (List.mem_cons_self e rest))

/-- C9 counterexample: replacing source `OFAC_SDN` with one entity whose
`uid` collides with an existing `UN_SC` row removes that row — the
`INSERT OR REPLACE` keyed on the `uid` primary key clobbers rows of other
sources, so `UN_SC`'s per-source count drops from 1 to 0. -/
theorem store_entities_cross_source_clobber_counterexample :
    count_by_source
      [{ uid := "u1", name := "Bad Guy", entity_type := "individual", program := "",
         source_list := "UN_SC", aliases := [], remarks := "", search_text := "" }]
      "UN_SC" = 1 ∧
    count_by_source
      (store_entities
        [{ uid := "u1", name := "Bad Guy", entity_type := "individual", program := "",
           source_list := "UN_SC", aliases := [], remarks := "", search_text := "" }]
        [{ uid := "u1", name := "New Guy", source_list := "OFAC_SDN" }]
        "OFAC_SDN")
      "UN_SC" = 0 := by
  constructor
  · rfl
  · rfl

/-- C9 amended: `_store_entities(entities, A)` leaves the stored rows of
every other source `B` (and hence `B`'s `get_statistics` count) unchanged,
PROVIDED each input entity's `source_list` field equals `A` and no input
entity's `uid` collides with an existing row of a source other than `A` —
conditions the repository's own parsers establish (they set
`source_list = source_name` and build `uid`s prefixed by the source name),
but which `_store_entities` itself does not enforce. -/
theorem store_entities_source_isolation (db : List DBRow)
    (entities : List SanctionsEntity) (A B : String) (hAB : B ≠ A)
    (hsrc : ∀ ent ∈ entities, ent.source_list = A)
    (huid : ∀ ent ∈ entities, ∀ r ∈ db, r.source_list ≠ A → r.uid ≠ ent.uid) :
    (store_entities db entities A).filter (fun r => (r.source_list = B : Bool)) =
      db.filter (fun r => (r.source_list = B : Bool)) ∧
    count_by_source (store_entities db entities A) B = count_by_source db B := by
  have hfilter :
      (store_entities db entities A).filter (fun r => (r.source_list = B : Bool)) =
        db.filter (fun r => (r.source_list = B : Bool)) := by
    unfold store_entities
    rw [store_fold_preserves_other_source entities B _
      (fun ent hent h => hAB (h.symm.trans (hsrc ent hent)))
      ?_]
    · rw [List.filter_filter]
      apply List.filter_congr
      intro x _
      by_cases hB : x.source_list = B
      · have : x.source_list ≠ A := by rw [hB]; exact hAB
        simp [hB, this, hAB]
      · simp [hB]
    · intro ent hent x hx hB
      have hxdb : x ∈ db := (List.mem_filter.mp hx).1
      have hxA : x.source_list ≠ A := by
        have h2 := (List.mem_filter.mp hx).2
        simp at h2
        exact h2
      exact huid ent hent x hxdb hxA
  refine ⟨hfilter, ?_⟩
  rw [count_by_source_eq_length_filter, count_by_source_eq_length_filter, hfilter]

/-- Witness for `store_entities_source_isolation` at concrete inputs. -/
theorem store_entities_source_isolation_witness :
    ("UN_SC" : String) ≠ "OFAC_SDN" ∧
    ((store_entities
        [{ uid := "UN_SC_u1", name := "Bad Guy", entity_type := "individual",
           program := "", source_list := "UN_SC", aliases := [], remarks := "",
           search_text := "" }]
        [{ uid := "OFAC_SDN_u1", name := "New Guy", source_list := "OFAC_SDN" }]
        "OFAC_SDN").filter (fun r => (r.source_list = "UN_SC" : Bool)) =
      [{ uid := "UN_SC_u1", name := "Bad Guy", entity_type := "individual",
         program := "", source_list := "UN_SC", aliases := [], remarks := "",
         search_text := "" }].filter (fun r => (r.source_list = "UN_SC" : Bool)) ∧
    count_by_source
      (store_entities
        [{ uid := "UN_SC_u1", name := "Bad Guy", entity_type := "individual",
           program := "", source_list := "UN_SC", aliases := [], remarks := "",
           search_text := "" }]
        [{ uid := "OFAC_SDN_u1", name := "New Guy", source_list := "OFAC_SDN" }]
        "OFAC_SDN") "UN_SC" =
      count_by_source
        [{ uid := "UN_SC_u1", name := "Bad Guy", entity_type := "individual",
           program := "", source_list := "UN_SC", aliases := [], remarks := "",
           search_text := "" }] "UN_SC") :=
  ⟨by decide,
    store_entities_source_isolation _ _ "OFAC_SDN" "UN_SC" (by decide)
      (by decide) (by decide)⟩
